import Mathlib

/-!
A verification development for the PCA9685 PWM-controller driver
(files `PCA9685_Driver.h` / `PCA9685_Driver.cpp`).

The driver is embedded shallowly:

* The chip together with the driver object is a `DriverState`: the five
  configured bus addresses, the cached oscillator frequency
  (`_osillator_freq`, with spelling kept from the source), the chip register
  file, and a trace of the two-wire bus events the driver has issued.
* Bus traffic (`beginTransmission` / `write` / `endTransmission` /
  `requestFrom` / `read`) is recorded in the trace; a register write also
  updates the register file (the chip hears every write), and a register
  read returns the value in the register file.
* C++ `uint8_t` / `uint32_t` values are `Nat`s; conversions to `uint8_t`
  are explicit `% 256` at the points where the source converts.
* C++ `float` arithmetic is idealised as exact rational arithmetic (`ℚ`);
  the `(uint8_t)` cast of a non-negative float is `Int.floor` followed by
  `Int.toNat` (truncation toward zero).
* Fixed delays (`delay(10)`, `delay(5)`) and the debug `Serial` prints are
  out of scope and are not modelled.
-/

namespace PCA9685

/-! ### Constants from `PCA9685_Driver.h` -/

def OSC_FREQ : Nat := 25000000

def PCA9685_I2C_ADDR : Nat := 0x40

def PCA9685_I2C_ALL_CALL : Nat := 0x70

def PCA9685_SUB_CALL_1 : Nat := 0x71

def PCA9685_SUB_CALL_2 : Nat := 0x72

def PCA9685_SUB_CALL_3 : Nat := 0x73

def PCA9685_MODE1 : Nat := 0x00

def PCA9685_MODE2 : Nat := 0x01

def PCA9685_LED0_ON_L : Nat := 0x06

def PCA9685_ALL_LED_ON_L : Nat := 0xFA

def PCA9685_PRESCALE : Nat := 0xFE

def MODE1_ALLCALL : Nat := 1

def MODE1_SUB3 : Nat := 2

def MODE1_SUB2 : Nat := 4

def MODE1_SUB1 : Nat := 8

def MODE1_SLEEP : Nat := 16

def MODE1_AI : Nat := 32

def MODE1_EXTCLK : Nat := 64

def MODE1_RESTART : Nat := 128

def MODE2_OUTDRV : Nat := 4

/-- The address-selector enumeration `EAddressType` from the header. -/
inductive EAddressType
  | Normal
  | AllCall
  | SubCall1
  | SubCall2
  | SubCall3
deriving DecidableEq, Repr

/-- The output-type enumeration `EOutputType` from the header. -/
inductive EOutputType
  | OpenDrain
  | TotemPole
deriving DecidableEq, Repr

/-- One primitive call on the `TwoWire` bus transactor, as issued by the
driver.  `write` carries the byte queued inside an open transaction. -/
inductive I2CEvent
  | beginTransmission (addr : Nat)
  | write (b : Nat)
  | endTransmission
  | requestFrom (addr : Nat) (count : Nat)
  | read
deriving DecidableEq, Repr

/-- The driver object (fields of class `PCA9685_Driver`) together with the
chip register file and the trace of bus events issued so far. -/
structure DriverState where
  i2c_address : Nat
  i2c_allCall_address : Nat
  i2c_sub1_address : Nat
  i2c_sub2_address : Nat
  i2c_sub3_address : Nat
  osillator_freq : Nat
  regs : Nat → Nat
  trace : List I2CEvent

/-- Embeds `PCA9685_Driver::getAddress`: resolves an `EAddressType` into one of the
five stored bus addresses; `Normal` (and the `default` arm) resolve to
`_i2c_address`. -/
def getAddress (s : DriverState) : EAddressType → Nat
  | EAddressType.AllCall => s.i2c_allCall_address
  | EAddressType.SubCall1 => s.i2c_sub1_address
  | EAddressType.SubCall2 => s.i2c_sub2_address
  | EAddressType.SubCall3 => s.i2c_sub3_address
  | EAddressType.Normal => s.i2c_address

/-- Embeds `PCA9685_Driver::readByte`: a write transaction carrying the register
address followed by a one-byte request, both directed at `_i2c_address`
(the primary address — the `addressType` of the enclosing operation is not
consulted).  Returns the register contents and the extended trace. -/
def readByte (s : DriverState) (reg_addr : Nat) : Nat × DriverState :=
  (s.regs reg_addr,
   { s with trace := s.trace ++
      [I2CEvent.beginTransmission s.i2c_address, I2CEvent.write reg_addr,
       I2CEvent.endTransmission, I2CEvent.requestFrom s.i2c_address 1,
       I2CEvent.read] })

/-- Embeds `PCA9685_Driver::writeByte`: one transaction at the resolved address
carrying the register address and the data byte.  The `data` parameter has
C++ type `uint8_t`, hence the `% 256`; the chip register file is updated
with the byte. -/
def writeByte (s : DriverState) (addressType : EAddressType) (reg_addr data : Nat) :
    DriverState :=
  { s with
    regs := fun r => if r = reg_addr then data % 256 else s.regs r,
    trace := s.trace ++
      [I2CEvent.beginTransmission (getAddress s addressType),
       I2CEvent.write reg_addr, I2CEvent.write (data % 256),
       I2CEvent.endTransmission] }

/-! ### Frequency / prescaler arithmetic

`setPWMFrequency` and `setExtClock` contain the same (textually duplicated)
lines computing the clamped frequency and the prescale byte; they are
factored into `clampedFreq` and `prescale_byte` here. -/

/-- The frequency clamp from `setPWMFrequency` / `setExtClock`:
`upper_limit = (int)(_osillator_freq / 16384)` (an unsigned integer
division) and
`frequency = frequency < 1 ? 1 : frequency > upper_limit ? upper_limit : frequency`. -/
def clampedFreq (osc : Nat) (f : ℚ) : ℚ :=
  if f < 1 then 1
  else if f > ((osc / 16384 : Nat) : ℚ) then ((osc / 16384 : Nat) : ℚ)
  else f

/-- The prescale byte written by `setPWMFrequency` / `setExtClock`:
`prescale_value = ((_osillator_freq / (4096 * frequency) + 0.5) - 1)` on the
clamped frequency, then
`prescale_value = prescale_value < 0x03 ? 0x03 : prescale_value > 0xff ? 0xff : prescale_value`,
then the `(uint8_t)` cast (truncation; the value is in `[3, 255]`). -/
def prescale_byte (osc : Nat) (f : ℚ) : Nat :=
  let pv : ℚ := (osc : ℚ) / (4096 * clampedFreq osc f) + 1 / 2 - 1
  let pvc : ℚ := if pv < 3 then 3 else if pv > 255 then 255 else pv
  (⌊pvc⌋).toNat

/-- Modelled from the spec: `prescale = floor(oscillatorFrequencyHz /
(4096 × targetFreqHz) + 0.5) − 1`, clamped to `[3, 255]`.  This is the
formula of the spec, written independently of the source, for comparison with
`prescale_byte`. -/
def spec_prescale (osc : Nat) (f : ℚ) : ℤ :=
  max 3 (min 255 (⌊(osc : ℚ) / (4096 * f) + 1 / 2⌋ - 1))

/-- Modelled from the spec: the bus-event sequence `setExtClock` must
produce — a mode-1 read (two transactions at the primary address, as the
read path of the bus transactor prescribes), then four single-byte write
transactions at the target address: mode-1 with restart cleared and sleep
set, the same value with the external-clock bit also set, the prescaler
byte, and finally mode-1 with sleep cleared and restart and auto-increment
set.  `m` is the mode-1 value read, `pb` the prescale byte. -/
def spec_setExtClock_events (primary target m pb : Nat) : List I2CEvent :=
  [I2CEvent.beginTransmission primary, I2CEvent.write PCA9685_MODE1,
   I2CEvent.endTransmission, I2CEvent.requestFrom primary 1, I2CEvent.read,
   I2CEvent.beginTransmission target, I2CEvent.write PCA9685_MODE1,
   I2CEvent.write ((m &&& 127) ||| MODE1_SLEEP), I2CEvent.endTransmission,
   I2CEvent.beginTransmission target, I2CEvent.write PCA9685_MODE1,
   I2CEvent.write (((m &&& 127) ||| MODE1_SLEEP) ||| MODE1_EXTCLK),
   I2CEvent.endTransmission,
   I2CEvent.beginTransmission target, I2CEvent.write PCA9685_PRESCALE,
   I2CEvent.write pb, I2CEvent.endTransmission,
   I2CEvent.beginTransmission target, I2CEvent.write PCA9685_MODE1,
   I2CEvent.write (((((m &&& 127) ||| MODE1_SLEEP) ||| MODE1_EXTCLK) &&& 239) |||
     MODE1_RESTART ||| MODE1_AI),
   I2CEvent.endTransmission]

/-! ### Driver operations from `PCA9685_Driver.cpp` -/

/-- Embeds `PCA9685_Driver::sleep`: read mode-1, write it back with the sleep bit
set. -/
def sleep (s : DriverState) (addressType : EAddressType) : DriverState :=
  let r := readByte s PCA9685_MODE1
  writeByte r.2 addressType PCA9685_MODE1 (r.1 ||| MODE1_SLEEP)

/-- Embeds `PCA9685_Driver::wakeUp`: read mode-1, write it back with the sleep bit
cleared (`& ~MODE1_SLEEP`; `239 = 0xEF` is the byte complement of `0x10`). -/
def wakeUp (s : DriverState) (addressType : EAddressType) : DriverState :=
  let r := readByte s PCA9685_MODE1
  writeByte r.2 addressType PCA9685_MODE1 (r.1 &&& 239)

/-- Embeds `PCA9685_Driver::restart`: write the restart bit to mode-1 (the 10 ms
delay is not modelled). -/
def restart (s : DriverState) (addressType : EAddressType) : DriverState :=
  writeByte s addressType PCA9685_MODE1 MODE1_RESTART

/-- Embeds `PCA9685_Driver::setOscillFrequency`: plain mutator of the cached
`_osillator_freq` field (`uint32_t`, hence the `% 2 ^ 32`); no bus traffic. -/
def setOscillFrequency (s : DriverState) (frequency : Nat) : DriverState :=
  { s with osillator_freq := frequency % 2 ^ 32 }

/-- Embeds `PCA9685_Driver::getOscillFrequency`: plain accessor of the cached
`_osillator_freq` field; no bus traffic. -/
def getOscillFrequency (s : DriverState) : Nat :=
  s.osillator_freq

/-- Embeds `PCA9685_Driver::setPWMFrequency`: clamp the requested frequency,
compute the prescale byte, save mode-1, enter sleep with restart cleared,
write the prescaler, restore the saved mode-1, then write mode-1 with
restart and auto-increment forced on.  Returns
`_osillator_freq / (4096 * ((uint8_t)prescale_value + 1))` — an unsigned
integer division, since the divisor has type `int` — together with the new
state.  (`127 = 0x7F` is the byte complement of `MODE1_RESTART`.) -/
def setPWMFrequency (s : DriverState) (frequency : ℚ) (addressType : EAddressType) :
    Nat × DriverState :=
  let pb := prescale_byte s.osillator_freq frequency
  let r := readByte s PCA9685_MODE1
  let current_mode1 := r.1
  let s1 := writeByte r.2 addressType PCA9685_MODE1
    ((current_mode1 &&& 127) ||| MODE1_SLEEP)
  let s2 := writeByte s1 addressType PCA9685_PRESCALE pb
  let s3 := writeByte s2 addressType PCA9685_MODE1 current_mode1
  let s4 := writeByte s3 addressType PCA9685_MODE1
    (current_mode1 ||| MODE1_RESTART ||| MODE1_AI)
  (s.osillator_freq / (4096 * (pb + 1)), s4)

/-- Embeds `PCA9685_Driver::getPWMFrequency`: read the prescaler back and return
`_osillator_freq / (4096 * (prescale + 1))` (again an unsigned integer
division, the divisor having type `int`). -/
def getPWMFrequency (s : DriverState) : Nat × DriverState :=
  let r := readByte s PCA9685_PRESCALE
  (s.osillator_freq / (4096 * (r.1 + 1)), r.2)

/-- Embeds `PCA9685_Driver::setExtClock`: read mode-1; write it back with restart
cleared and sleep set; write the same value again with the external-clock
bit also set (`mode |= MODE1_EXTCLK`); cache the external frequency via
`setOscillFrequency`; clamp the PWM frequency and compute the prescale byte
against the new cached frequency; write the prescaler; finally write mode-1
with sleep cleared and restart and auto-increment set
(`239 = 0xEF` is the byte complement of `MODE1_SLEEP`). -/
def setExtClock (s : DriverState) (frequency : Nat) (pwmFrequency : ℚ)
    (addressType : EAddressType) : DriverState :=
  let r := readByte s PCA9685_MODE1
  let mode := (r.1 &&& 127) ||| MODE1_SLEEP
  let s1 := writeByte r.2 addressType PCA9685_MODE1 mode
  let mode2 := mode ||| MODE1_EXTCLK
  let s2 := writeByte s1 addressType PCA9685_MODE1 mode2
  let s3 := setOscillFrequency s2 frequency
  let pb := prescale_byte s3.osillator_freq pwmFrequency
  let s4 := writeByte s3 addressType PCA9685_PRESCALE pb
  writeByte s4 addressType PCA9685_MODE1
    ((mode2 &&& 239) ||| MODE1_RESTART ||| MODE1_AI)

/-- Embeds `PCA9685_Driver::setOutputType`: reads mode-2 and writes the read value
back unchanged.  The switch statement in the source computes `mode | MODE2_OUTDRV`
(TotemPole) or `mode & ~MODE2_OUTDRV` (OpenDrain) as a bare expression
statement and discards the result — `mode` is never reassigned
(`251 = 0xFB` is the byte complement of `MODE2_OUTDRV`). -/
def setOutputType (s : DriverState) (type : EOutputType) (addressType : EAddressType) :
    DriverState :=
  let r := readByte s PCA9685_MODE2
  let mode := r.1
  let _discarded : Nat :=
    match type with
    | EOutputType.TotemPole => mode ||| MODE2_OUTDRV
    | EOutputType.OpenDrain => mode &&& 251
  writeByte r.2 addressType PCA9685_MODE2 mode

/-- Embeds `PCA9685_Driver::setPWMOutput`: one transaction at the resolved address
selecting the base register of the channel `PCA9685_LED0_ON_L + 4 * output` and
then the four data bytes `on & 0xFF`, `(on >> 8) & 0xFF`, `off & 0xFF`,
`(off >> 8) & 0xFF`.  Each byte passes through `TwoWire::write(uint8_t)`,
hence the `% 256`.  The LED registers are never read back by the driver, so
the register file is left untouched by the model. -/
def setPWMOutput (s : DriverState) (output onTick offTick : Nat)
    (addressType : EAddressType) : DriverState :=
  { s with trace := s.trace ++
      [I2CEvent.beginTransmission (getAddress s addressType),
       I2CEvent.write ((PCA9685_LED0_ON_L + 4 * output) % 256),
       I2CEvent.write ((onTick &&& 0xFF) % 256),
       I2CEvent.write (((onTick >>> 8) &&& 0xFF) % 256),
       I2CEvent.write ((offTick &&& 0xFF) % 256),
       I2CEvent.write (((offTick >>> 8) &&& 0xFF) % 256),
       I2CEvent.endTransmission] }

/-- Embeds `PCA9685_Driver::setAllPWMOutputs`: the same four-byte burst at the
broadcast `ALL_LED` register block. -/
def setAllPWMOutputs (s : DriverState) (onTick offTick : Nat)
    (addressType : EAddressType) : DriverState :=
  { s with trace := s.trace ++
      [I2CEvent.beginTransmission (getAddress s addressType),
       I2CEvent.write PCA9685_ALL_LED_ON_L,
       I2CEvent.write ((onTick &&& 0xFF) % 256),
       I2CEvent.write (((onTick >>> 8) &&& 0xFF) % 256),
       I2CEvent.write ((offTick &&& 0xFF) % 256),
       I2CEvent.write (((offTick >>> 8) &&& 0xFF) % 256),
       I2CEvent.endTransmission] }

/-- A driver freshly constructed with the default addresses and the nominal
internal oscillator frequency, all chip registers zero, no bus traffic yet. -/
def initState : DriverState :=
  { i2c_address := PCA9685_I2C_ADDR
    i2c_allCall_address := PCA9685_I2C_ALL_CALL
    i2c_sub1_address := PCA9685_SUB_CALL_1
    i2c_sub2_address := PCA9685_SUB_CALL_2
    i2c_sub3_address := PCA9685_SUB_CALL_3
    osillator_freq := OSC_FREQ
    regs := fun _ => 0
    trace := [] }

/-- A driver state whose chip already has the mode-1 SLEEP bit set
(mode-1 = 0x10), all other registers zero. -/
def mode1SetState : DriverState :=
  { initState with regs := fun r => if r = PCA9685_MODE1 then 16 else 0 }


/-! ### Arithmetic lemmas about the clamp and the prescale byte -/

lemma floor_clamp (v : ℚ) :
    ⌊if v < 3 then (3 : ℚ) else if v > 255 then (255 : ℚ) else v⌋ =
      max 3 (min 255 ⌊v⌋) := by
  by_cases h3 : v < 3
  · have hf : ⌊v⌋ ≤ 3 := by
      have : (⌊v⌋ : ℚ) < 3 := lt_of_le_of_lt (Int.floor_le v) h3
      exact_mod_cast le_of_lt this
    rw [if_pos h3, min_eq_right (le_trans hf (by norm_num)), max_eq_left hf]
    norm_num
  · by_cases h255 : v > 255
    · have hf : (255 : ℤ) ≤ ⌊v⌋ := Int.le_floor.mpr (by exact_mod_cast le_of_lt h255)
      rw [if_neg h3, if_pos h255, min_eq_left hf, max_eq_right (by norm_num)]
      norm_num
    · have hlo : (3 : ℤ) ≤ ⌊v⌋ := Int.le_floor.mpr (by exact_mod_cast not_lt.mp h3)
      have hhi : ⌊v⌋ ≤ 255 := by
        have : (⌊v⌋ : ℚ) ≤ 255 := le_trans (Int.floor_le v) (not_lt.mp h255)
        exact_mod_cast this
      rw [if_neg h3, if_neg h255, min_eq_right hhi, max_eq_right hlo]

lemma prescale_byte_bounds (osc : Nat) (f : ℚ) :
    3 ≤ prescale_byte osc f ∧ prescale_byte osc f ≤ 255 := by
  simp only [prescale_byte]
  rw [floor_clamp]
  constructor
  · have h := le_max_left (3 : ℤ) (min 255 ⌊(osc : ℚ) / (4096 * clampedFreq osc f) + 1 / 2 - 1⌋)
    omega
  · have h := max_le (show (3 : ℤ) ≤ 255 by norm_num)
      (min_le_left 255 ⌊(osc : ℚ) / (4096 * clampedFreq osc f) + 1 / 2 - 1⌋)
    omega

lemma prescale_byte_lt256 (osc : Nat) (f : ℚ) : prescale_byte osc f < 256 :=
  lt_of_le_of_lt (prescale_byte_bounds osc f).2 (by norm_num)

lemma clampedFreq_eq (osc : Nat) (f : ℚ) (h1 : 1 ≤ f)
    (h2 : f ≤ ((osc / 16384 : Nat) : ℚ)) : clampedFreq osc f = f := by
  unfold clampedFreq
  rw [if_neg (not_lt.mpr h1), if_neg (not_lt.mpr h2)]

lemma clampedFreq_mem (osc : Nat) (f : ℚ) (h : 16384 ≤ osc) :
    1 ≤ clampedFreq osc f ∧ clampedFreq osc f ≤ ((osc / 16384 : Nat) : ℚ) := by
  have hup : 1 ≤ osc / 16384 := (Nat.one_le_div_iff (by norm_num)).mpr h
  have hupq : (1 : ℚ) ≤ ((osc / 16384 : Nat) : ℚ) := by exact_mod_cast hup
  unfold clampedFreq
  by_cases h1 : f < 1
  · rw [if_pos h1]; exact ⟨le_refl 1, hupq⟩
  · by_cases h2 : f > ((osc / 16384 : Nat) : ℚ)
    · rw [if_neg h1, if_pos h2]; exact ⟨hupq, le_refl _⟩
    · rw [if_neg h1, if_neg h2]; exact ⟨not_lt.mp h1, not_lt.mp h2⟩

lemma clampedFreq_idem (osc : Nat) (f : ℚ) (h : 16384 ≤ osc) :
    clampedFreq osc (clampedFreq osc f) = clampedFreq osc f :=
  clampedFreq_eq osc _ (clampedFreq_mem osc f h).1 (clampedFreq_mem osc f h).2

lemma prescale_byte_clamp (osc : Nat) (f : ℚ) (h : 16384 ≤ osc) :
    prescale_byte osc (clampedFreq osc f) = prescale_byte osc f := by
  simp only [prescale_byte]
  rw [clampedFreq_idem osc f h]

lemma prescale_byte_eq_spec (osc : Nat) (f : ℚ) (h1 : 1 ≤ f)
    (h2 : f ≤ ((osc / 16384 : Nat) : ℚ)) :
    (prescale_byte osc f : ℤ) = spec_prescale osc f := by
  simp only [prescale_byte, spec_prescale]
  rw [clampedFreq_eq osc f h1 h2, floor_clamp]
  have hsub : ⌊(osc : ℚ) / (4096 * f) + 1 / 2 - 1⌋ =
      ⌊(osc : ℚ) / (4096 * f) + 1 / 2⌋ - 1 := by
    have h := Int.floor_sub_int ((osc : ℚ) / (4096 * f) + 1 / 2) 1
    push_cast at h
    exact h
  rw [hsub]
  have h3 : (3 : ℤ) ≤ max 3 (min 255 (⌊(osc : ℚ) / (4096 * f) + 1 / 2⌋ - 1)) :=
    le_max_left _ _
  omega

/-! ### State-effect helper lemmas -/

lemma byte_or_lt (x y : Nat) (hx : x < 256) (hy : y < 256) : x ||| y < 256 := by
  have h := Nat.or_lt_two_pow (n := 8) hx hy
  simpa using h

lemma getAddress_mk (s : DriverState) (o : Nat) (rg : Nat → Nat)
    (t : List I2CEvent) (a : EAddressType) :
    getAddress { s with osillator_freq := o, regs := rg, trace := t } a =
      getAddress s a := by
  cases a <;> rfl

lemma setPWMFrequency_regs_prescale (s : DriverState) (g : ℚ) (a : EAddressType) :
    (setPWMFrequency s g a).2.regs PCA9685_PRESCALE =
      prescale_byte s.osillator_freq g := by
  simp [setPWMFrequency, writeByte, readByte, PCA9685_PRESCALE, PCA9685_MODE1,
    Nat.mod_eq_of_lt (prescale_byte_lt256 _ _)]

lemma setPWMFrequency_osc (s : DriverState) (g : ℚ) (a : EAddressType) :
    (setPWMFrequency s g a).2.osillator_freq = s.osillator_freq := by
  simp [setPWMFrequency, writeByte, readByte]

lemma setPWMFrequency_fst (s : DriverState) (g : ℚ) (a : EAddressType) :
    (setPWMFrequency s g a).1 =
      s.osillator_freq / (4096 * (prescale_byte s.osillator_freq g + 1)) := rfl

/-! ### Claims -/

/-- Claim C7: for each of the 5 address-selector values the resolved bus
address equals the correspondingly stored address; `Normal` resolves to the
primary address regardless of the other four address fields (the state `s`
is arbitrary). -/
theorem C7_getAddress_resolution (s : DriverState) :
    getAddress s EAddressType.Normal = s.i2c_address ∧
    getAddress s EAddressType.AllCall = s.i2c_allCall_address ∧
    getAddress s EAddressType.SubCall1 = s.i2c_sub1_address ∧
    getAddress s EAddressType.SubCall2 = s.i2c_sub2_address ∧
    getAddress s EAddressType.SubCall3 = s.i2c_sub3_address :=
  ⟨rfl, rfl, rfl, rfl, rfl⟩

/-- Claim C8: for every output type and every mode-2 value, `setOutputType`
writes back exactly the byte it read: the register file is unchanged (so in
particular the OUTDRV bit, bit 2, is unchanged) and the data byte on the bus
equals the value read from mode-2. -/
theorem C8_setOutputType_noop (s : DriverState) (type : EOutputType)
    (a : EAddressType) (h : s.regs PCA9685_MODE2 < 256) :
    (setOutputType s type a).regs = s.regs ∧
    ((setOutputType s type a).regs PCA9685_MODE2).testBit 2 =
      (s.regs PCA9685_MODE2).testBit 2 ∧
    (setOutputType s type a).trace = s.trace ++
      [I2CEvent.beginTransmission s.i2c_address, I2CEvent.write PCA9685_MODE2,
       I2CEvent.endTransmission, I2CEvent.requestFrom s.i2c_address 1,
       I2CEvent.read,
       I2CEvent.beginTransmission (getAddress s a), I2CEvent.write PCA9685_MODE2,
       I2CEvent.write (s.regs PCA9685_MODE2), I2CEvent.endTransmission] := by
  have hregs : (setOutputType s type a).regs = s.regs := by
    funext r
    by_cases hr : r = PCA9685_MODE2
    · subst hr
      simp [setOutputType, writeByte, readByte, Nat.mod_eq_of_lt h]
    · simp [setOutputType, writeByte, readByte, hr]
  refine ⟨hregs, by rw [hregs], ?_⟩
  simp [setOutputType, writeByte, readByte, getAddress_mk, Nat.mod_eq_of_lt h]

/-- Claim C8 witness: concrete instance at the fresh driver state. -/
theorem C8_witness :
    (setOutputType initState EOutputType.TotemPole EAddressType.Normal).regs =
      initState.regs ∧
    ((setOutputType initState EOutputType.TotemPole EAddressType.Normal).regs
        PCA9685_MODE2).testBit 2 = (initState.regs PCA9685_MODE2).testBit 2 ∧
    (setOutputType initState EOutputType.TotemPole EAddressType.Normal).trace =
      initState.trace ++
      [I2CEvent.beginTransmission initState.i2c_address, I2CEvent.write PCA9685_MODE2,
       I2CEvent.endTransmission, I2CEvent.requestFrom initState.i2c_address 1,
       I2CEvent.read,
       I2CEvent.beginTransmission (getAddress initState EAddressType.Normal),
       I2CEvent.write PCA9685_MODE2,
       I2CEvent.write (initState.regs PCA9685_MODE2), I2CEvent.endTransmission] :=
  C8_setOutputType_noop initState EOutputType.TotemPole EAddressType.Normal
    (by decide)

/-- Claim C9: `setOscillFrequency` performs no bus transaction and changes
no driver state other than the cached oscillator frequency; afterwards
`getOscillFrequency` returns the set value and the frequency-to-prescaler
arithmetic of `setPWMFrequency` uses it. -/
theorem C9_setOscillFrequency_pure (s : DriverState) (f : Nat) (g : ℚ)
    (a : EAddressType) (h : f < 2 ^ 32) :
    (setOscillFrequency s f).trace = s.trace ∧
    (setOscillFrequency s f).regs = s.regs ∧
    (setOscillFrequency s f).i2c_address = s.i2c_address ∧
    (setOscillFrequency s f).i2c_allCall_address = s.i2c_allCall_address ∧
    (setOscillFrequency s f).i2c_sub1_address = s.i2c_sub1_address ∧
    (setOscillFrequency s f).i2c_sub2_address = s.i2c_sub2_address ∧
    (setOscillFrequency s f).i2c_sub3_address = s.i2c_sub3_address ∧
    getOscillFrequency (setOscillFrequency s f) = f ∧
    (setPWMFrequency (setOscillFrequency s f) g a).2.regs PCA9685_PRESCALE =
      prescale_byte f g ∧
    (setPWMFrequency (setOscillFrequency s f) g a).1 =
      f / (4096 * (prescale_byte f g + 1)) := by
  have hosc : (setOscillFrequency s f).osillator_freq = f := Nat.mod_eq_of_lt h
  refine ⟨rfl, rfl, rfl, rfl, rfl, rfl, rfl, ?_, ?_, ?_⟩
  · simpa [getOscillFrequency] using hosc
  · rw [setPWMFrequency_regs_prescale, hosc]
  · rw [setPWMFrequency_fst, hosc]

/-- Claim C9 witness: concrete instance at the fresh driver state. -/
theorem C9_witness :
    (setOscillFrequency initState 26000000).trace = initState.trace ∧
    (setOscillFrequency initState 26000000).regs = initState.regs ∧
    (setOscillFrequency initState 26000000).i2c_address = initState.i2c_address ∧
    (setOscillFrequency initState 26000000).i2c_allCall_address =
      initState.i2c_allCall_address ∧
    (setOscillFrequency initState 26000000).i2c_sub1_address =
      initState.i2c_sub1_address ∧
    (setOscillFrequency initState 26000000).i2c_sub2_address =
      initState.i2c_sub2_address ∧
    (setOscillFrequency initState 26000000).i2c_sub3_address =
      initState.i2c_sub3_address ∧
    getOscillFrequency (setOscillFrequency initState 26000000) = 26000000 ∧
    (setPWMFrequency (setOscillFrequency initState 26000000) 1000
        EAddressType.Normal).2.regs PCA9685_PRESCALE =
      prescale_byte 26000000 1000 ∧
    (setPWMFrequency (setOscillFrequency initState 26000000) 1000
        EAddressType.Normal).1 =
      26000000 / (4096 * (prescale_byte 26000000 1000 + 1)) :=
  C9_setOscillFrequency_pure initState 26000000 1000 EAddressType.Normal
    (by norm_num)

/-- Claim C10: every register read goes through `readByte`, whose two bus
transactions are both addressed to the primary address `_i2c_address` with
no reference to any address selector; consequently `sleep addressType`
reads mode-1 from the primary address but writes the modified value to the
address resolved from `addressType`. -/
theorem C10_reads_use_primary_address (s : DriverState) (reg_addr : Nat)
    (a : EAddressType) :
    (readByte s reg_addr).2.trace = s.trace ++
      [I2CEvent.beginTransmission s.i2c_address, I2CEvent.write reg_addr,
       I2CEvent.endTransmission, I2CEvent.requestFrom s.i2c_address 1,
       I2CEvent.read] ∧
    (sleep s a).trace = s.trace ++
      [I2CEvent.beginTransmission s.i2c_address, I2CEvent.write PCA9685_MODE1,
       I2CEvent.endTransmission, I2CEvent.requestFrom s.i2c_address 1,
       I2CEvent.read,
       I2CEvent.beginTransmission (getAddress s a), I2CEvent.write PCA9685_MODE1,
       I2CEvent.write ((s.regs PCA9685_MODE1 ||| MODE1_SLEEP) % 256),
       I2CEvent.endTransmission] := by
  constructor
  · rfl
  · simp [sleep, writeByte, readByte, getAddress_mk]

/-- Claim C5: `getPWMFrequency` immediately after `setPWMFrequency f`
returns exactly the value `setPWMFrequency f` itself returned, for every
state, frequency and address selector (no intervening prescaler write). -/
theorem C5_getPWMFrequency_readback (s : DriverState) (f : ℚ)
    (a : EAddressType) :
    (getPWMFrequency (setPWMFrequency s f a).2).1 = (setPWMFrequency s f a).1 := by
  show (setPWMFrequency s f a).2.osillator_freq /
      (4096 * ((setPWMFrequency s f a).2.regs PCA9685_PRESCALE + 1)) = _
  rw [setPWMFrequency_regs_prescale, setPWMFrequency_osc, setPWMFrequency_fst]

/-! ### Bit lemmas for the mode-1 sleep bit (`MODE1_SLEEP = 16 = 2 ^ 4`,
byte complement `239 = 0xEF`) -/

lemma testBit_16 (j : Nat) (hj : j ≠ 4) : Nat.testBit 16 j = false := by
  rw [show (16 : Nat) = 2 ^ 4 from rfl, Nat.testBit_two_pow]
  exact decide_eq_false fun h => hj h.symm

lemma or16_testBit (m i : Nat) (hi : i ≠ 4) :
    (m ||| 16).testBit i = m.testBit i := by
  rw [Nat.testBit_or, testBit_16 i hi, Bool.or_false]

lemma or16_and239 (m : Nat) : (m ||| 16) &&& 239 = m &&& 239 := by
  apply Nat.eq_of_testBit_eq
  intro j
  by_cases hj : j = 4
  · subst hj
    have h239 : Nat.testBit 239 4 = false := by decide
    simp [Nat.testBit_and, h239]
  · rw [Nat.testBit_and, Nat.testBit_and, or16_testBit m j hj]

lemma and239_testBit (m i : Nat) (h256 : m < 256) (hi : i ≠ 4) :
    (m &&& 239).testBit i = m.testBit i := by
  rw [Nat.testBit_and]
  by_cases h8 : i < 8
  · have h239 : Nat.testBit 239 i = true := by
      interval_cases i <;> revert hi <;> decide
    simp [h239]
  · have hpow : (256 : Nat) ≤ 2 ^ i := by
      calc (256 : Nat) = 2 ^ 8 := rfl
        _ ≤ 2 ^ i := Nat.pow_le_pow_right (by norm_num) (by omega)
    have hm : m.testBit i = false :=
      Nat.testBit_lt_two_pow (lt_of_lt_of_le h256 hpow)
    simp [hm]

lemma and239_eq_self (m : Nat) (h256 : m < 256) (h4 : m.testBit 4 = false) :
    m &&& 239 = m := by
  apply Nat.eq_of_testBit_eq
  intro j
  by_cases hj : j = 4
  · subst hj
    rw [Nat.testBit_and, h4]
    simp
  · exact and239_testBit m j h256 hj

lemma sleep_regs (s : DriverState) (a : EAddressType)
    (h : s.regs PCA9685_MODE1 < 256) :
    (sleep s a).regs PCA9685_MODE1 = s.regs PCA9685_MODE1 ||| MODE1_SLEEP := by
  have hlt : s.regs PCA9685_MODE1 ||| MODE1_SLEEP < 256 :=
    byte_or_lt _ _ h (by norm_num [ MODE1_SLEEP])
  simp [sleep, writeByte, readByte, Nat.mod_eq_of_lt hlt]

lemma wakeUp_regs (s : DriverState) (b : EAddressType)
    (_h : s.regs PCA9685_MODE1 < 256) :
    (wakeUp s b).regs PCA9685_MODE1 = s.regs PCA9685_MODE1 &&& 239 := by
  have hlt : s.regs PCA9685_MODE1 &&& 239 < 256 :=
    lt_of_le_of_lt Nat.and_le_right (by norm_num)
  simp [wakeUp, writeByte, readByte, Nat.mod_eq_of_lt hlt]

/-- Claim C4 (amended): `sleep` sets only the SLEEP bit and `wakeUp` clears
only the SLEEP bit of mode-1, each by read-modify-write preserving every
other bit (`i ≠ 4`); `sleep` followed by `wakeUp` leaves mode-1 equal to its
pre-sleep value with the SLEEP bit cleared, which is the pre-sleep value
bit-for-bit exactly when the SLEEP bit was clear before the `sleep` call. -/
theorem C4_sleep_wakeUp (s : DriverState) (a b : EAddressType) (i : Nat)
    (h256 : s.regs PCA9685_MODE1 < 256) (hi : i ≠ 4) :
    (sleep s a).regs PCA9685_MODE1 = s.regs PCA9685_MODE1 ||| MODE1_SLEEP ∧
    ((sleep s a).regs PCA9685_MODE1).testBit i =
      (s.regs PCA9685_MODE1).testBit i ∧
    (wakeUp (sleep s a) b).regs PCA9685_MODE1 = s.regs PCA9685_MODE1 &&& 239 ∧
    ((wakeUp (sleep s a) b).regs PCA9685_MODE1).testBit i =
      (s.regs PCA9685_MODE1).testBit i ∧
    ((s.regs PCA9685_MODE1).testBit 4 = false →
      (wakeUp (sleep s a) b).regs PCA9685_MODE1 = s.regs PCA9685_MODE1) := by
  have hs := sleep_regs s a h256
  have hs256 : (sleep s a).regs PCA9685_MODE1 < 256 := by
    rw [hs]
    exact byte_or_lt _ _ h256 (by norm_num [ MODE1_SLEEP])
  have hw := wakeUp_regs (sleep s a) b hs256
  rw [hs] at hw
  have hw239 : (wakeUp (sleep s a) b).regs PCA9685_MODE1 =
      s.regs PCA9685_MODE1 &&& 239 := by
    rw [hw, show MODE1_SLEEP = 16 from rfl, or16_and239]
  refine ⟨hs, ?_, hw239, ?_, ?_⟩
  · rw [hs, show MODE1_SLEEP = 16 from rfl]
    exact or16_testBit _ i hi
  · rw [hw239]
    exact and239_testBit _ i h256 hi
  · intro h4
    rw [hw239]
    exact and239_eq_self _ h256 h4

/-- Claim C4 witness: concrete instance at the fresh driver state, bit 0. -/
theorem C4_witness :
    (sleep initState EAddressType.Normal).regs PCA9685_MODE1 =
      initState.regs PCA9685_MODE1 ||| MODE1_SLEEP ∧
    ((sleep initState EAddressType.Normal).regs PCA9685_MODE1).testBit 0 =
      (initState.regs PCA9685_MODE1).testBit 0 ∧
    (wakeUp (sleep initState EAddressType.Normal) EAddressType.Normal).regs
        PCA9685_MODE1 = initState.regs PCA9685_MODE1 &&& 239 ∧
    ((wakeUp (sleep initState EAddressType.Normal) EAddressType.Normal).regs
        PCA9685_MODE1).testBit 0 = (initState.regs PCA9685_MODE1).testBit 0 ∧
    ((initState.regs PCA9685_MODE1).testBit 4 = false →
      (wakeUp (sleep initState EAddressType.Normal) EAddressType.Normal).regs
        PCA9685_MODE1 = initState.regs PCA9685_MODE1) :=
  C4_sleep_wakeUp initState EAddressType.Normal EAddressType.Normal 0
    (by decide) (by decide)

/-- Claim C4 counterexample: starting from mode-1 = 0x10 (SLEEP already
set), `sleep()` followed by `wakeUp()` yields mode-1 = 0x00, not the
pre-sleep value — the universal bit-for-bit restoration fails. -/
theorem C4_counterexample :
    (wakeUp (sleep mode1SetState EAddressType.Normal) EAddressType.Normal).regs
        PCA9685_MODE1 = 0 ∧
    mode1SetState.regs PCA9685_MODE1 = 16 ∧
    ¬ ((wakeUp (sleep mode1SetState EAddressType.Normal)
        EAddressType.Normal).regs PCA9685_MODE1 =
      mode1SetState.regs PCA9685_MODE1) := by
  refine ⟨?_, rfl, ?_⟩ <;> decide

/-- Claim C6: for a channel in 0..15 and 16-bit tick values,
`setPWMOutput` issues a single transaction at the resolved address,
selecting base register `0x06 + 4 × channel` and then exactly the four data
bytes `on & 0xFF`, `(on >> 8) & 0xFF`, `off & 0xFF`, `(off >> 8) & 0xFF`
in order. -/
theorem C6_setPWMOutput_burst (s : DriverState) (a : EAddressType)
    (output onTick offTick : Nat) (hch : output ≤ 15)
    (_hon : onTick < 65536) (_hoff : offTick < 65536) :
    (setPWMOutput s output onTick offTick a).trace = s.trace ++
      [I2CEvent.beginTransmission (getAddress s a),
       I2CEvent.write (PCA9685_LED0_ON_L + 4 * output),
       I2CEvent.write (onTick &&& 0xFF),
       I2CEvent.write ((onTick >>> 8) &&& 0xFF),
       I2CEvent.write (offTick &&& 0xFF),
       I2CEvent.write ((offTick >>> 8) &&& 0xFF),
       I2CEvent.endTransmission] := by
  have h1 : (PCA9685_LED0_ON_L + 4 * output) % 256 =
      PCA9685_LED0_ON_L + 4 * output :=
    Nat.mod_eq_of_lt (by simp only [PCA9685_LED0_ON_L]; omega)
  have hb : ∀ x : Nat, (x &&& 255) % 256 = x &&& 255 := fun x =>
    Nat.mod_eq_of_lt (lt_of_le_of_lt Nat.and_le_right (by norm_num))
  simp [setPWMOutput, h1, hb]

/-- Claim C6 witness: channel 3, on-tick 409, off-tick 3687, SubCall2. -/
theorem C6_witness :
    (setPWMOutput initState 3 409 3687 EAddressType.SubCall2).trace =
      initState.trace ++
      [I2CEvent.beginTransmission (getAddress initState EAddressType.SubCall2),
       I2CEvent.write (PCA9685_LED0_ON_L + 4 * 3),
       I2CEvent.write (409 &&& 0xFF),
       I2CEvent.write ((409 >>> 8) &&& 0xFF),
       I2CEvent.write (3687 &&& 0xFF),
       I2CEvent.write ((3687 >>> 8) &&& 0xFF),
       I2CEvent.endTransmission] :=
  C6_setPWMOutput_burst initState EAddressType.SubCall2 3 409 3687
    (by decide) (by decide) (by decide)

/-! ### Claims C2, C1 and C3 -/

lemma prescale_byte_congr (osc : Nat) (f1 f2 : ℚ)
    (h : clampedFreq osc f1 = clampedFreq osc f2) :
    prescale_byte osc f1 = prescale_byte osc f2 := by
  simp only [prescale_byte, h]

lemma setPWMFrequency_freq_congr (s : DriverState) (f1 f2 : ℚ) (a : EAddressType)
    (h : prescale_byte s.osillator_freq f1 = prescale_byte s.osillator_freq f2) :
    setPWMFrequency s f1 a = setPWMFrequency s f2 a := by
  simp only [setPWMFrequency, h]

/-- Claim C2: `setPWMFrequency` acts on its frequency argument only through
the clamp to `[1, oscillatorFrequencyHz/16384]` (an integer upper bound,
1525 for the 25 MHz oscillator): the call on any `f` is indistinguishable
from the call on the clamped `f`, and concretely `setPWMFrequency 0` equals
`setPWMFrequency 1` and `setPWMFrequency 100000` equals
`setPWMFrequency 1526` — out-of-range inputs are silently clamped, never
rejected. -/
theorem C2_setPWMFrequency_clamping (s : DriverState) (a : EAddressType)
    (f : ℚ) (h : s.osillator_freq = 25000000) :
    setPWMFrequency s f a = setPWMFrequency s (clampedFreq 25000000 f) a ∧
    setPWMFrequency s 0 a = setPWMFrequency s 1 a ∧
    setPWMFrequency s 100000 a = setPWMFrequency s 1526 a := by
  refine ⟨?_, ?_, ?_⟩
  · apply setPWMFrequency_freq_congr
    rw [h]
    exact (prescale_byte_clamp 25000000 f (by norm_num)).symm
  · apply setPWMFrequency_freq_congr
    apply prescale_byte_congr
    rw [h]
    norm_num [clampedFreq]
  · apply setPWMFrequency_freq_congr
    apply prescale_byte_congr
    rw [h]
    norm_num [clampedFreq]

/-- Claim C2 witness: concrete instance at the fresh driver state
(oscillator 25 MHz). -/
theorem C2_witness :
    setPWMFrequency initState 0 EAddressType.Normal =
      setPWMFrequency initState (clampedFreq 25000000 0) EAddressType.Normal ∧
    setPWMFrequency initState 0 EAddressType.Normal =
      setPWMFrequency initState 1 EAddressType.Normal ∧
    setPWMFrequency initState 100000 EAddressType.Normal =
      setPWMFrequency initState 1526 EAddressType.Normal :=
  C2_setPWMFrequency_clamping initState EAddressType.Normal 0 rfl

/-- Claim C1 (amended): for every target frequency in
`[1, oscillatorFrequencyHz/16384]`, `setPWMFrequency` computes
`prescale = floor(osc / (4096 × f) + 0.5) − 1` clamped to `[3, 255]`
(`spec_prescale`), writes that byte to the prescaler register, and returns
`osc / (4096 × (prescale + 1))` rounded down to an integer — the division
is performed in unsigned integer arithmetic, not exactly. -/
theorem C1_setPWMFrequency_amended (s : DriverState) (a : EAddressType)
    (f : ℚ) (h1 : 1 ≤ f)
    (h2 : f ≤ ((s.osillator_freq / 16384 : Nat) : ℚ)) :
    3 ≤ spec_prescale s.osillator_freq f ∧
    spec_prescale s.osillator_freq f ≤ 255 ∧
    (setPWMFrequency s f a).2.regs PCA9685_PRESCALE =
      (spec_prescale s.osillator_freq f).toNat ∧
    (setPWMFrequency s f a).1 =
      s.osillator_freq / (4096 * ((spec_prescale s.osillator_freq f).toNat + 1)) := by
  have hspec := prescale_byte_eq_spec s.osillator_freq f h1 h2
  have hpb : prescale_byte s.osillator_freq f =
      (spec_prescale s.osillator_freq f).toNat := by omega
  refine ⟨?_, ?_, ?_, ?_⟩
  · simp only [spec_prescale]
    exact le_max_left _ _
  · simp only [spec_prescale]
    exact max_le (by norm_num) (min_le_left _ _)
  · rw [setPWMFrequency_regs_prescale, hpb]
  · rw [setPWMFrequency_fst, hpb]

/-- Claim C1 witness: concrete instance at the fresh driver state,
target frequency 1000 Hz. -/
theorem C1_witness :
    3 ≤ spec_prescale initState.osillator_freq 1000 ∧
    spec_prescale initState.osillator_freq 1000 ≤ 255 ∧
    (setPWMFrequency initState 1000 EAddressType.Normal).2.regs PCA9685_PRESCALE =
      (spec_prescale initState.osillator_freq 1000).toNat ∧
    (setPWMFrequency initState 1000 EAddressType.Normal).1 =
      initState.osillator_freq /
        (4096 * ((spec_prescale initState.osillator_freq 1000).toNat + 1)) :=
  C1_setPWMFrequency_amended initState EAddressType.Normal 1000 (by decide)
    (by decide)

/-- Claim C1 counterexample: at oscillator 25 MHz and target 1000 Hz the
prescale byte is 5, so the claimed exact return value is
`25000000 / (4096 × 6) = 1017.2526...` — but `setPWMFrequency` returns the
integer 1017, which is not equal to it. -/
theorem C1_counterexample :
    (setPWMFrequency initState 1000 EAddressType.Normal).2.regs
        PCA9685_PRESCALE = 5 ∧
    (setPWMFrequency initState 1000 EAddressType.Normal).1 = 1017 ∧
    ¬ (((setPWMFrequency initState 1000 EAddressType.Normal).1 : ℚ) =
      (25000000 : ℚ) / (4096 * (5 + 1))) := by
  have hosc : initState.osillator_freq = 25000000 := rfl
  have hspec5 : spec_prescale 25000000 1000 = 5 := by
    have hf : ⌊((25000000 : Nat) : ℚ) / (4096 * 1000) + 1 / 2⌋ = 6 := by
      norm_num [Int.floor_eq_iff]
    simp only [spec_prescale]
    rw [hf]
    norm_num
  have hpbZ := prescale_byte_eq_spec 25000000 1000 (by decide) (by decide)
  rw [hspec5] at hpbZ
  have hpb : prescale_byte 25000000 1000 = 5 := by exact_mod_cast hpbZ
  have hreg : (setPWMFrequency initState 1000 EAddressType.Normal).2.regs
      PCA9685_PRESCALE = 5 := by
    rw [setPWMFrequency_regs_prescale, hosc, hpb]
  have hret : (setPWMFrequency initState 1000 EAddressType.Normal).1 = 1017 := by
    rw [setPWMFrequency_fst, hosc, hpb]
  refine ⟨hreg, hret, ?_⟩
  rw [hret]
  norm_num

/-- Claim C3: `setExtClock` performs exactly the sequence the spec prescribes — read
mode-1 (addressed to the primary address, as all reads are), write it back
with restart cleared and sleep set, write the same value again with the
external-clock bit also set, cache the external frequency, clamp the PWM
frequency to `[1, oscillatorFrequencyHz/16384]`, write the prescaler
computed as `round(osc / (4096 × pwmFreq)) − 1` clamped to `[3, 255]`, and
finally write mode-1 with sleep cleared and restart and auto-increment set
— each write its own bus transaction at the resolved address. -/
theorem C3_setExtClock_sequence (s : DriverState) (extFreq : Nat) (pwm : ℚ)
    (a : EAddressType) (hosc : 16384 ≤ extFreq) (h32 : extFreq < 2 ^ 32) :
    (setExtClock s extFreq pwm a).trace = s.trace ++
      spec_setExtClock_events s.i2c_address (getAddress s a)
        (s.regs PCA9685_MODE1) (prescale_byte extFreq pwm) ∧
    (setExtClock s extFreq pwm a).osillator_freq = extFreq ∧
    1 ≤ clampedFreq extFreq pwm ∧
    clampedFreq extFreq pwm ≤ ((extFreq / 16384 : Nat) : ℚ) ∧
    (prescale_byte extFreq pwm : ℤ) =
      spec_prescale extFreq (clampedFreq extFreq pwm) ∧
    (((((s.regs PCA9685_MODE1 &&& 127) ||| MODE1_SLEEP) ||| MODE1_EXTCLK) &&& 239) |||
        MODE1_RESTART ||| MODE1_AI).testBit 4 = false ∧
    (((((s.regs PCA9685_MODE1 &&& 127) ||| MODE1_SLEEP) ||| MODE1_EXTCLK) &&& 239) |||
        MODE1_RESTART ||| MODE1_AI).testBit 7 = true ∧
    (((((s.regs PCA9685_MODE1 &&& 127) ||| MODE1_SLEEP) ||| MODE1_EXTCLK) &&& 239) |||
        MODE1_RESTART ||| MODE1_AI).testBit 5 = true := by
  have hmod32 : extFreq % 2 ^ 32 = extFreq := Nat.mod_eq_of_lt h32
  have h32lit : extFreq < 4294967296 := by
    have h := h32
    norm_num at h
    exact h
  have hmod32lit : extFreq % 4294967296 = extFreq := Nat.mod_eq_of_lt h32lit
  have h127 : s.regs PCA9685_MODE1 &&& 127 < 256 :=
    lt_of_le_of_lt Nat.and_le_right (by norm_num)
  have hv1 : (s.regs PCA9685_MODE1 &&& 127) ||| MODE1_SLEEP < 256 :=
    byte_or_lt _ _ h127 (by norm_num [ MODE1_SLEEP])
  have hv2 : ((s.regs PCA9685_MODE1 &&& 127) ||| MODE1_SLEEP) ||| MODE1_EXTCLK < 256 :=
    byte_or_lt _ _ hv1 (by norm_num [ MODE1_EXTCLK])
  have h239 : (((s.regs PCA9685_MODE1 &&& 127) ||| MODE1_SLEEP) |||
      MODE1_EXTCLK) &&& 239 < 256 :=
    lt_of_le_of_lt Nat.and_le_right (by norm_num)
  have hfin1 : ((((s.regs PCA9685_MODE1 &&& 127) ||| MODE1_SLEEP) |||
      MODE1_EXTCLK) &&& 239) ||| MODE1_RESTART < 256 :=
    byte_or_lt _ _ h239 (by norm_num [ MODE1_RESTART])
  have hfin : ((((s.regs PCA9685_MODE1 &&& 127) ||| MODE1_SLEEP) |||
      MODE1_EXTCLK) &&& 239) ||| MODE1_RESTART ||| MODE1_AI < 256 :=
    byte_or_lt _ _ hfin1 (by norm_num [ MODE1_AI])
  have hmem := clampedFreq_mem extFreq pwm hosc
  refine ⟨?_, ?_, hmem.1, hmem.2, ?_, ?_, ?_, ?_⟩
  · simp [setExtClock, writeByte, readByte, setOscillFrequency, getAddress_mk,
      spec_setExtClock_events, hmod32, hmod32lit, Nat.mod_eq_of_lt hv1,
      Nat.mod_eq_of_lt hv2,
      Nat.mod_eq_of_lt (prescale_byte_lt256 extFreq pwm), Nat.mod_eq_of_lt hfin]
  · simp [setExtClock, writeByte, readByte, setOscillFrequency, hmod32, hmod32lit]
  · calc (prescale_byte extFreq pwm : ℤ)
        = (prescale_byte extFreq (clampedFreq extFreq pwm) : ℤ) := by
          rw [prescale_byte_clamp extFreq pwm hosc]
      _ = spec_prescale extFreq (clampedFreq extFreq pwm) :=
          prescale_byte_eq_spec _ _ hmem.1 hmem.2
  · have e1 : Nat.testBit 239 4 = false := by decide
    have e2 : Nat.testBit 128 4 = false := by decide
    have e3 : Nat.testBit 32 4 = false := by decide
    simp only [ MODE1_RESTART, MODE1_AI, Nat.testBit_or, Nat.testBit_and]
    simp [e1, e2, e3]
  · have e2 : Nat.testBit 128 7 = true := by decide
    simp only [ MODE1_RESTART, MODE1_AI, Nat.testBit_or, Nat.testBit_and]
    simp [e2]
  · have e3 : Nat.testBit 32 5 = true := by decide
    simp only [ MODE1_RESTART, MODE1_AI, Nat.testBit_or, Nat.testBit_and]
    simp [e3]

/-- Claim C3 witness: external 25 MHz clock, PWM 1000 Hz, SubCall1
selector, at the fresh driver state. -/
theorem C3_witness :
    (setExtClock initState 25000000 1000 EAddressType.SubCall1).trace =
      initState.trace ++
      spec_setExtClock_events initState.i2c_address
        (getAddress initState EAddressType.SubCall1)
        (initState.regs PCA9685_MODE1) (prescale_byte 25000000 1000) ∧
    (setExtClock initState 25000000 1000 EAddressType.SubCall1).osillator_freq =
      25000000 ∧
    1 ≤ clampedFreq 25000000 1000 ∧
    clampedFreq 25000000 1000 ≤ ((25000000 / 16384 : Nat) : ℚ) ∧
    (prescale_byte 25000000 1000 : ℤ) =
      spec_prescale 25000000 (clampedFreq 25000000 1000) ∧
    (((((initState.regs PCA9685_MODE1 &&& 127) ||| MODE1_SLEEP) |||
        MODE1_EXTCLK) &&& 239) ||| MODE1_RESTART ||| MODE1_AI).testBit 4 = false ∧
    (((((initState.regs PCA9685_MODE1 &&& 127) ||| MODE1_SLEEP) |||
        MODE1_EXTCLK) &&& 239) ||| MODE1_RESTART ||| MODE1_AI).testBit 7 = true ∧
    (((((initState.regs PCA9685_MODE1 &&& 127) ||| MODE1_SLEEP) |||
        MODE1_EXTCLK) &&& 239) ||| MODE1_RESTART ||| MODE1_AI).testBit 5 = true :=
  C3_setExtClock_sequence initState 25000000 1000 EAddressType.SubCall1
    (by norm_num) (by norm_num)

end PCA9685
